import Mathlib

/-!
Shallow embedding of the `BackgroundTimer` service (the `endTime`-based
time-keeping state machine of the background script of this repository) and
proofs of the specified properties.

Timestamps are modelled as integers (milliseconds); durations as integers
(seconds).  JavaScript truthiness of nullable numeric fields is modelled
with `Option Int`, where `none` stands for `null`/`undefined` and `some 0`
is falsy like the number `0`.  `Math.ceil(d / 1000)` on an integer `d` is
the integer ceiling, i.e. `(d + 999) / 1000` with floor division.
-/

/-- The three session kinds: work, shortBreak, longBreak. -/
inductive SessionType where
  | work
  | shortBreak
  | longBreak
deriving DecidableEq

/-- In-memory `TimerState` of the background service. -/
structure TimerState where
  startTime : Option Int
  endTime : Option Int
  pausedAt : Option Int
  pausedDuration : Int
  sessionType : SessionType
  cyclePosition : Int
  timeLeft : Int
  isRunning : Bool
  lastSaveTime : Option Int
  lastUpdateTime : Int
deriving DecidableEq

/-- The serialized record written to `chrome.storage.local` under key
`pomodoroState`.  Every field is optional: foreign or legacy writers may
omit fields, and nullable fields may hold `null` (`none`). -/
structure PersistedRecord where
  timeLeft : Option Int
  isRunning : Option Bool
  lastSaveTime : Option Int
  sessionType : Option SessionType
  cyclePosition : Option Int
  startTime : Option Int
  endTime : Option Int
  pausedAt : Option Int
  pausedDuration : Option Int
deriving DecidableEq

/-- Observable side effects of a handler invocation, in order. -/
inductive Effect where
  | clearAlarm
  | createAlarm (whenMs : Int)
  | persist (r : PersistedRecord)
  | openNotificationPage
  | logNotifyError
deriving DecidableEq

/-- JavaScript `x || d` for a nullable number `x`: the default replaces
`null`/`undefined`/`0`. -/
def numOr (o : Option Int) (d : Int) : Int :=
  match o with
  | some v => if v = 0 then d else v
  | none => d

/-- JavaScript `x || null` for a nullable number `x`: `0` collapses to
`null`. -/
def numOrNull (o : Option Int) : Option Int :=
  match o with
  | some v => if v = 0 then none else some v
  | none => none

/-- JavaScript `b || d` for a possibly-absent boolean `b`. -/
def boolOr (o : Option Bool) (d : Bool) : Bool :=
  match o with
  | some b => b || d
  | none => d

/-- Integer model of `Math.ceil(d / 1000)` for a number of milliseconds `d`. -/
def ceilDiv1000 (d : Int) : Int :=
  (d + 999) / 1000

/-- The remaining-seconds formula `Math.max(0, Math.ceil((endTime - now) / 1000))`
used by `calculateCurrentTimeLeft` and `restoreState`. -/
def calcRemaining (endTimeMs nowMs : Int) : Int :=
  max 0 (ceilDiv1000 (endTimeMs - nowMs))

/-- Source `getSessionDuration`: fixed duration table, in seconds. -/
def getSessionDuration : SessionType → Int
  | .work => 25 * 60
  | .shortBreak => 5 * 60
  | .longBreak => 15 * 60

/-- Source `getSessionTypeFromPosition`: odd positions are work; position 8 is the
long break; other even positions are short breaks. -/
def getSessionTypeFromPosition (position : Int) : SessionType :=
  if position % 2 = 1 then .work
  else if position = 8 then .longBreak
  else .shortBreak

/-- The cycle-advance step `(position % 8) + 1` of `moveToNextSession`. -/
def advance (position : Int) : Int :=
  position % 8 + 1

/-- The initial state set by the constructor (`timeLeft = 25*60`, position 1, work). -/
def initialState (now : Int) : TimerState :=
  { timeLeft := 25 * 60
    isRunning := false
    lastSaveTime := some now
    startTime := none
    endTime := none
    pausedAt := none
    pausedDuration := 0
    sessionType := .work
    cyclePosition := 1
    lastUpdateTime := now }

/-- The projection of the in-memory state to the persisted record, as in
`saveAndBroadcastState` (`lastSaveTime` is taken from `lastUpdateTime`;
the `pausedDuration || 0` there is the identity on integers). -/
def persistedOf (s : TimerState) : PersistedRecord :=
  { timeLeft := some s.timeLeft
    isRunning := some s.isRunning
    lastSaveTime := some s.lastUpdateTime
    sessionType := some s.sessionType
    cyclePosition := some s.cyclePosition
    startTime := s.startTime
    endTime := s.endTime
    pausedAt := s.pausedAt
    pausedDuration := some (numOr (some s.pausedDuration) 0) }

/-- Source `calculateCurrentTimeLeft`: full session duration when `endTime` is
falsy; otherwise the remaining-seconds formula anchored at `pausedAt` when
paused, else at the current instant. -/
def calculateCurrentTimeLeft (s : TimerState) (now : Int) : Int :=
  match numOrNull s.endTime with
  | none => getSessionDuration s.sessionType
  | some e =>
    match numOrNull s.pausedAt with
    | some p => calcRemaining e p
    | none =>
      if s.isRunning then calcRemaining e now
      else calcRemaining e now

/-- Source `startTimer`: no-op when already running; otherwise fixes
`endTime = now + timeLeft * 1000`, clears the pause marker, re-arms the
completion alarm at `endTime`, and persists. -/
def startTimer (s : TimerState) (now : Int) : TimerState × List Effect :=
  if !s.isRunning then
    let e := now + s.timeLeft * 1000
    let s' := { s with
      isRunning := true
      startTime := some now
      endTime := some e
      pausedAt := none
      lastUpdateTime := now }
    (s', [.clearAlarm, .createAlarm e, .persist (persistedOf s')])
  else (s, [])

/-- Source `pauseTimer`: no-op when not running; otherwise snapshots the remaining
time (computed while still running), flips to paused, cancels the
completion alarm, and persists. -/
def pauseTimer (s : TimerState) (now : Int) : TimerState × List Effect :=
  if s.isRunning then
    let remainingTime := calculateCurrentTimeLeft s now
    let s' := { s with
      isRunning := false
      pausedAt := some now
      timeLeft := remainingTime
      lastUpdateTime := now }
    (s', [.clearAlarm, .persist (persistedOf s')])
  else (s, [])

/-- Source `resetTimer`: unconditionally returns to the idle work state at
position 1, cancels the alarm, and persists. -/
def resetTimer (s : TimerState) (now : Int) : TimerState × List Effect :=
  let s' := { s with
    isRunning := false
    timeLeft := 25 * 60
    startTime := none
    endTime := none
    pausedAt := none
    pausedDuration := 0
    sessionType := SessionType.work
    cyclePosition := 1
    lastUpdateTime := now }
  (s', [.clearAlarm, .persist (persistedOf s')])

/-- Source `setTime`: no-op while running; otherwise overwrites `timeLeft` and
persists. -/
def setTime (s : TimerState) (now : Int) (timeLeft : Int) : TimerState × List Effect :=
  if !s.isRunning then
    let s' := { s with timeLeft := timeLeft, lastUpdateTime := now }
    (s', [.persist (persistedOf s')])
  else (s, [])

/-- Source `handleTimerComplete`: attempts to open the notification page (a
failure is caught and logged, never rethrown), advances the cycle, loads
the full duration of the new session, clears the run markers, and persists.
`notifyOk` is the outcome of the notification-page attempt. -/
def handleTimerComplete (s : TimerState) (now : Int) (notifyOk : Bool) :
    TimerState × List Effect :=
  let notifyEffs : List Effect :=
    if notifyOk then [.openNotificationPage]
    else [.openNotificationPage, .logNotifyError]
  let p' := advance s.cyclePosition
  let st := getSessionTypeFromPosition p'
  let s' := { s with
    cyclePosition := p'
    sessionType := st
    timeLeft := getSessionDuration st
    isRunning := false
    startTime := none
    endTime := none
    pausedAt := none
    lastUpdateTime := now }
  (s', notifyEffs ++ [.persist (persistedOf s')])

/-- The broadcast payload of `handleSyncAlarm`: the `timeLeft` carried by the
30-second `STATE_SYNC` message. -/
def syncTimeLeft (s : TimerState) (now : Int) : Int :=
  calculateCurrentTimeLeft s now

/-- The field-by-field restoration step of `restoreState` (each persisted
field is adopted with a `||`-default; `lastUpdateTime` is set to now). -/
def restoreFields (r : PersistedRecord) (now : Int) : TimerState :=
  { timeLeft := numOr r.timeLeft (25 * 60)
    isRunning := boolOr r.isRunning false
    lastSaveTime := some (numOr r.lastSaveTime now)
    sessionType := r.sessionType.getD .work
    cyclePosition := numOr r.cyclePosition 1
    startTime := numOrNull r.startTime
    endTime := numOrNull r.endTime
    pausedAt := numOrNull r.pausedAt
    pausedDuration := numOr r.pausedDuration 0
    lastUpdateTime := now }

/-- Source `restoreState`: keeps the current state when nothing is persisted;
otherwise restores field-by-field, and if the restored state is running
with a truthy `endTime`, either re-arms the completion alarm at the
original `endTime` (remaining time still positive) or immediately runs the
completion path. -/
def restoreState (saved : Option PersistedRecord) (s : TimerState) (now : Int)
    (notifyOk : Bool) : TimerState × List Effect :=
  match saved with
  | none => (s, [])
  | some r =>
    let s1 := restoreFields r now
    if s1.isRunning then
      match s1.endTime with
      | some e =>
        let remainingTime := calcRemaining e now
        if 0 < remainingTime then
          ({ s1 with timeLeft := remainingTime }, [.createAlarm e])
        else
          handleTimerComplete s1 now notifyOk
      | none => (s1, [])
    else (s1, [])

/-- Command messages understood by the popup/background message protocol.
`SET_TIME`, `SET_TIME_AND_RESET` and `JUMP_TO_POSITION` carry an optional
payload field. -/
inductive Command where
  | START_TIMER
  | PAUSE_TIMER
  | RESET_TIMER
  | SET_TIME (timeLeft : Option Int)
  | SET_TIME_AND_RESET (timeLeft : Option Int)
  | GET_STATE
  | JUMP_TO_POSITION (position : Option Int)
deriving DecidableEq

/-- Source `handleCommand`: the command dispatcher of the service.  Its `switch` has
cases only for `START_TIMER`, `PAUSE_TIMER`, `RESET_TIMER`, `SET_TIME`
(guarded by `if (message.timeLeft)`) and `GET_STATE` (a persist-and-
broadcast of the unchanged state); any other message type falls through
with no effect. -/
def handleCommand (s : TimerState) (now : Int) (m : Command) :
    TimerState × List Effect :=
  match m with
  | .START_TIMER => startTimer s now
  | .PAUSE_TIMER => pauseTimer s now
  | .RESET_TIMER => resetTimer s now
  | .SET_TIME t =>
    match t with
    | some v => if v = 0 then (s, []) else setTime s now v
    | none => (s, [])
  | .GET_STATE => (s, [.persist (persistedOf s)])
  | .SET_TIME_AND_RESET _ => (s, [])
  | .JUMP_TO_POSITION _ => (s, [])

/-- One handler invocation of the service actor: a command, a completion
alarm, a sync tick (which never mutates state), or startup restoration
from a persisted record. -/
inductive Step : TimerState → TimerState → Prop where
  | cmd (s : TimerState) (now : Int) (m : Command) :
      Step s (handleCommand s now m).1
  | alarmComplete (s : TimerState) (now : Int) (ok : Bool) :
      Step s (handleTimerComplete s now ok).1
  | syncTick (s : TimerState) : Step s s
  | restore (s : TimerState) (now : Int) (ok : Bool)
      (saved : Option PersistedRecord)
      (h : ∀ r, saved = some r → boolOr r.isRunning false = true →
        numOrNull r.endTime ≠ none) :
      Step s (restoreState saved s now ok).1

/-- States reachable from the initial state by handler
invocations. -/
inductive Reachable : TimerState → Prop where
  | init (now : Int) : Reachable (initialState now)
  | step {s t : TimerState} : Reachable s → Step s t → Reachable t

/-- For a state holding a nonzero deadline and no pause marker, the current
time-left is the remaining-seconds formula at the given instant, whether or
not the state is marked running. -/
lemma calculateCurrentTimeLeft_running (s : TimerState) (now e : Int)
    (he : s.endTime = some e) (he0 : e ≠ 0) (hp : s.pausedAt = none) :
    calculateCurrentTimeLeft s now = calcRemaining e now := by
  simp [calculateCurrentTimeLeft, numOrNull, he, he0, hp]

/-- C4: for a deadline strictly in the future the remaining-seconds
computation is exactly the ceiling of the millisecond difference over 1000
(so at least 1); for a deadline at or before the current instant it is
exactly 0; it is never negative.  The last two conjuncts pin the ceiling
down: `1000 * result` is the least multiple of 1000 at or above the
difference. -/
theorem calcRemaining_ceil_floor_zero (e now : Int) :
    calcRemaining e now = (if now < e then ceilDiv1000 (e - now) else 0) ∧
    (1 ≤ calcRemaining e now ↔ now < e) ∧
    0 ≤ calcRemaining e now ∧
    e - now ≤ 1000 * calcRemaining e now ∧
    (if now < e then 1000 * (calcRemaining e now - 1) < e - now else True) := by
  unfold calcRemaining ceilDiv1000
  refine ⟨?_, ?_, ?_, ?_, ?_⟩ <;> (try split_ifs) <;> omega

/-- C5: on positions 1..8 the cycle-advance step is `(p % 8) + 1`, which is
`p + 1` except that 8 wraps to 1; kinds are work on odd positions, the long
break on position 8, the short break on the remaining even positions; so
positions 1..8 carry the kinds work, shortBreak, work, shortBreak, work,
shortBreak, work, longBreak. -/
theorem advance_cycle_law (p : Int) (h1 : 1 ≤ p) (h8 : p ≤ 8) :
    advance p = p % 8 + 1 ∧
    advance p = (if p = 8 then 1 else p + 1) ∧
    getSessionTypeFromPosition p =
      (if p % 2 = 1 then SessionType.work
       else if p = 8 then SessionType.longBreak
       else SessionType.shortBreak) ∧
    (List.range 8).map (fun i => getSessionTypeFromPosition ((i : Int) + 1)) =
      [SessionType.work, SessionType.shortBreak, SessionType.work,
       SessionType.shortBreak, SessionType.work, SessionType.shortBreak,
       SessionType.work, SessionType.longBreak] ∧
    advance 8 = 1 := by
  refine ⟨rfl, ?_, rfl, by decide, by decide⟩
  unfold advance
  split_ifs with h
  · omega
  · omega

/-- Witness for the cycle law at the wrap-around position 8. -/
theorem advance_cycle_law_witness :
    advance 8 = 8 % 8 + 1 ∧
    advance 8 = (if (8 : Int) = 8 then 1 else 8 + 1) ∧
    getSessionTypeFromPosition 8 =
      (if (8 : Int) % 2 = 1 then SessionType.work
       else if (8 : Int) = 8 then SessionType.longBreak
       else SessionType.shortBreak) ∧
    (List.range 8).map (fun i => getSessionTypeFromPosition ((i : Int) + 1)) =
      [SessionType.work, SessionType.shortBreak, SessionType.work,
       SessionType.shortBreak, SessionType.work, SessionType.shortBreak,
       SessionType.work, SessionType.longBreak] ∧
    advance 8 = 1 :=
  advance_cycle_law 8 (by decide) (by decide)

/-- C7: the command dispatcher silently drops `SET_TIME_AND_RESET` and
`JUMP_TO_POSITION` — its `switch` has no case for either, so the state is
unchanged and no alarm or persistence effect is produced, contradicting
the spec list of handled commands and the repository test expecting
`SET_TIME_AND_RESET` to persist the new time. -/
theorem handleCommand_drops_set_time_and_reset_and_jump
    (s : TimerState) (now : Int) (t p : Option Int) :
    handleCommand s now (Command.SET_TIME_AND_RESET t) = (s, []) ∧
    handleCommand s now (Command.JUMP_TO_POSITION p) = (s, []) :=
  ⟨rfl, rfl⟩

/-- C8: a failure of the notification surface is caught: the state
transition of the completion path is identical to the success case — the
cycle position advances, the session kind and full duration of the new
session are loaded, the run flag is cleared — and the same persisted
record is written. -/
theorem handleTimerComplete_notify_failure_same_transition
    (s : TimerState) (now : Int) :
    (handleTimerComplete s now false).1 = (handleTimerComplete s now true).1 ∧
    (handleTimerComplete s now false).1.cyclePosition = advance s.cyclePosition ∧
    (handleTimerComplete s now false).1.sessionType =
      getSessionTypeFromPosition (advance s.cyclePosition) ∧
    (handleTimerComplete s now false).1.timeLeft =
      getSessionDuration (getSessionTypeFromPosition (advance s.cyclePosition)) ∧
    (handleTimerComplete s now false).1.isRunning = false ∧
    Effect.persist (persistedOf (handleTimerComplete s now true).1) ∈
      (handleTimerComplete s now false).2 := by
  refine ⟨rfl, rfl, rfl, rfl, rfl, ?_⟩
  simp [handleTimerComplete]

/-- C9: a `SET_TIME` command whose `timeLeft` payload is `0` or absent is a
complete no-op — the guard `if (message.timeLeft)` rejects both, so even
a non-running state is left unchanged and nothing is persisted. -/
theorem handleCommand_set_time_falsy_noop (s : TimerState) (now : Int) :
    handleCommand s now (Command.SET_TIME (some 0)) = (s, []) ∧
    handleCommand s now (Command.SET_TIME none) = (s, []) := by
  constructor
  · simp [handleCommand]
  · rfl

/-- C1: restoring a persisted running record with deadline `T` five seconds
before `T` re-arms the completion alarm for exactly the original instant
`T` and computes a remaining time of 5 seconds; restoring it five seconds
after `T` immediately runs the completion path, yielding a not-running
state whose cycle position is advanced by exactly one step (`(p % 8) + 1`,
so 8 wraps to 1) and whose `timeLeft` is the full duration of the kind of
the new session. -/
theorem restore_after_gap (r : PersistedRecord) (s : TimerState) (T p : Int)
    (ok : Bool)
    (hrun : r.isRunning = some true) (hend : r.endTime = some T) (hT : T ≠ 0)
    (hcp : r.cyclePosition = some p) (h1 : 1 ≤ p) (h8 : p ≤ 8) :
    (restoreState (some r) s (T - 5000) ok).1.timeLeft = 5 ∧
    (restoreState (some r) s (T - 5000) ok).1.isRunning = true ∧
    (restoreState (some r) s (T - 5000) ok).2 = [Effect.createAlarm T] ∧
    (restoreState (some r) s (T + 5000) ok).1.isRunning = false ∧
    (restoreState (some r) s (T + 5000) ok).1.cyclePosition = advance p ∧
    advance p = (if p = 8 then 1 else p + 1) ∧
    (restoreState (some r) s (T + 5000) ok).1.timeLeft =
      getSessionDuration (getSessionTypeFromPosition (advance p)) := by
  have h5 : calcRemaining T (T - 5000) = 5 := by
    unfold calcRemaining ceilDiv1000; omega
  have h0 : calcRemaining T (T + 5000) = 0 := by
    unfold calcRemaining ceilDiv1000; omega
  have hp0 : p ≠ 0 := by omega
  have hwrap : advance p = (if p = 8 then 1 else p + 1) := by
    unfold advance; split_ifs <;> omega
  refine ⟨?_, ?_, ?_, ?_, ?_, hwrap, ?_⟩ <;>
    simp [restoreState, restoreFields, boolOr, numOrNull, numOr, hrun, hend,
      hT, hcp, hp0, h5, h0, handleTimerComplete]

/-- A concrete persisted running record with deadline 1000000 at the
wrap-around cycle position 8. -/
def restoreExampleRecord : PersistedRecord :=
  { timeLeft := some 1
    isRunning := some true
    lastSaveTime := some 999000
    sessionType := some .work
    cyclePosition := some 8
    startTime := some 900000
    endTime := some 1000000
    pausedAt := none
    pausedDuration := some 0 }

/-- Witness for C1 at `T = 1000000`, position 8 (the wrap to 1). -/
theorem restore_after_gap_witness :
    (restoreState (some restoreExampleRecord) (initialState 0)
      (1000000 - 5000) true).1.timeLeft = 5 ∧
    (restoreState (some restoreExampleRecord) (initialState 0)
      (1000000 - 5000) true).1.isRunning = true ∧
    (restoreState (some restoreExampleRecord) (initialState 0)
      (1000000 - 5000) true).2 = [Effect.createAlarm 1000000] ∧
    (restoreState (some restoreExampleRecord) (initialState 0)
      (1000000 + 5000) true).1.isRunning = false ∧
    (restoreState (some restoreExampleRecord) (initialState 0)
      (1000000 + 5000) true).1.cyclePosition = advance 8 ∧
    advance 8 = (if (8 : Int) = 8 then 1 else 8 + 1) ∧
    (restoreState (some restoreExampleRecord) (initialState 0)
      (1000000 + 5000) true).1.timeLeft =
      getSessionDuration (getSessionTypeFromPosition (advance 8)) :=
  restore_after_gap restoreExampleRecord (initialState 0) 1000000 8 true
    rfl rfl (by decide) rfl (by decide) (by decide)

/-- C2: pause and resume are exact to the second with no leakage of paused
time — from a not-running state with `timeLeft = 100`, `start()` at `t0`
fixes the deadline `t0 + 100 * 1000`; pausing 30 seconds later yields
`timeLeft = 70` with the run flag cleared; starting again at `t1` fixes the
deadline `t1 + 70 * 1000`, and 10 seconds later the computed remaining
time is 60. -/
theorem pause_resume_exact (s0 : TimerState) (t0 t1 : Int)
    (hrun : s0.isRunning = false) (htl : s0.timeLeft = 100)
    (ht0 : 0 ≤ t0) (ht1 : 0 ≤ t1) :
    (startTimer s0 t0).1.endTime = some (t0 + 100 * 1000) ∧
    (pauseTimer (startTimer s0 t0).1 (t0 + 30000)).1.timeLeft = 70 ∧
    (pauseTimer (startTimer s0 t0).1 (t0 + 30000)).1.isRunning = false ∧
    (startTimer (pauseTimer (startTimer s0 t0).1 (t0 + 30000)).1 t1).1.endTime =
      some (t1 + 70 * 1000) ∧
    calculateCurrentTimeLeft
      (startTimer (pauseTimer (startTimer s0 t0).1 (t0 + 30000)).1 t1).1
      (t1 + 10000) = 60 := by
  have hne1 : t0 + 100000 ≠ 0 := by omega
  simp [startTimer, pauseTimer, calculateCurrentTimeLeft, numOrNull, hrun, htl,
    calcRemaining, ceilDiv1000, hne1]
  split_ifs with h
  · exfalso; omega
  · simp

/-- Witness for C2 starting from the initial state with `timeLeft` set to
100 via `setTime`, with `t0 = 0` and `t1 = 40000`. -/
theorem pause_resume_exact_witness :
    (startTimer (setTime (initialState 0) 0 100).1 0).1.endTime =
      some (0 + 100 * 1000) ∧
    (pauseTimer (startTimer (setTime (initialState 0) 0 100).1 0).1
      (0 + 30000)).1.timeLeft = 70 ∧
    (pauseTimer (startTimer (setTime (initialState 0) 0 100).1 0).1
      (0 + 30000)).1.isRunning = false ∧
    (startTimer (pauseTimer (startTimer (setTime (initialState 0) 0 100).1 0).1
      (0 + 30000)).1 40000).1.endTime = some (40000 + 70 * 1000) ∧
    calculateCurrentTimeLeft
      (startTimer (pauseTimer (startTimer (setTime (initialState 0) 0 100).1 0).1
        (0 + 30000)).1 40000).1 (40000 + 10000) = 60 :=
  pause_resume_exact (setTime (initialState 0) 0 100).1 0 40000
    (by decide) (by decide) (by decide) (by decide)

/-- A persisted record of the shape written by the legacy countdown-based
viewer: running, but with no `endTime` field at all. -/
def legacyRunningRecord : PersistedRecord :=
  { timeLeft := some 300
    isRunning := some true
    lastSaveTime := some 999000
    sessionType := none
    cyclePosition := none
    startTime := none
    endTime := none
    pausedAt := none
    pausedDuration := none }

/-- C3 counterexample: `restoreState` applied to a persisted record with
`isRunning` true and `endTime` null adopts `isRunning = true` yet leaves
`endTime = null` (the `isRunning && endTime` guard skips both recovery
branches), so the claimed invariant fails on the resulting state. -/
theorem restore_breaks_running_invariant :
    (restoreState (some legacyRunningRecord) (initialState 0) 1000000
      true).1.isRunning = true ∧
    (restoreState (some legacyRunningRecord) (initialState 0) 1000000
      true).1.endTime = none := by decide

/-- The invariant of the claim: a running state has a non-null deadline. -/
def RunImpliesEnd (s : TimerState) : Prop :=
  s.isRunning = true → s.endTime ≠ none

lemma runImpliesEnd_startTimer (s : TimerState) (now : Int)
    (h : RunImpliesEnd s) : RunImpliesEnd (startTimer s now).1 := by
  unfold startTimer
  by_cases hr : s.isRunning
  · simpa [hr] using h
  · simp [hr, RunImpliesEnd]

lemma runImpliesEnd_pauseTimer (s : TimerState) (now : Int)
    (h : RunImpliesEnd s) : RunImpliesEnd (pauseTimer s now).1 := by
  unfold pauseTimer
  by_cases hr : s.isRunning
  · simp [hr, RunImpliesEnd]
  · simpa [hr] using h

lemma runImpliesEnd_resetTimer (s : TimerState) (now : Int) :
    RunImpliesEnd (resetTimer s now).1 := by
  simp [resetTimer, RunImpliesEnd]

lemma runImpliesEnd_setTime (s : TimerState) (now t : Int)
    (h : RunImpliesEnd s) : RunImpliesEnd (setTime s now t).1 := by
  unfold setTime
  by_cases hr : s.isRunning
  · simpa [hr] using h
  · intro hrun
    simp [hr] at hrun

lemma runImpliesEnd_handleTimerComplete (s : TimerState) (now : Int)
    (ok : Bool) : RunImpliesEnd (handleTimerComplete s now ok).1 := by
  simp [handleTimerComplete, RunImpliesEnd]

lemma runImpliesEnd_handleCommand (s : TimerState) (now : Int) (m : Command)
    (h : RunImpliesEnd s) : RunImpliesEnd (handleCommand s now m).1 := by
  cases m with
  | START_TIMER => exact runImpliesEnd_startTimer s now h
  | PAUSE_TIMER => exact runImpliesEnd_pauseTimer s now h
  | RESET_TIMER => exact runImpliesEnd_resetTimer s now
  | SET_TIME t =>
    cases t with
    | some v =>
      by_cases hv : v = 0
      · simpa [handleCommand, hv] using h
      · simpa [handleCommand, hv] using runImpliesEnd_setTime s now v h
    | none => exact h
  | GET_STATE => exact h
  | SET_TIME_AND_RESET t => exact h
  | JUMP_TO_POSITION p => exact h

lemma runImpliesEnd_restoreState (s : TimerState) (now : Int) (ok : Bool)
    (saved : Option PersistedRecord)
    (hrec : ∀ r, saved = some r → boolOr r.isRunning false = true →
      numOrNull r.endTime ≠ none)
    (h : RunImpliesEnd s) : RunImpliesEnd (restoreState saved s now ok).1 := by
  cases saved with
  | none => exact h
  | some r =>
    simp only [restoreState]
    by_cases hr1 : (restoreFields r now).isRunning
    · rw [if_pos hr1]
      split
      · rename_i e heq
        by_cases hrem : 0 < calcRemaining e now
        · rw [if_pos hrem]
          intro hrun2
          simp [heq]
        · rw [if_neg hrem]
          exact runImpliesEnd_handleTimerComplete _ now ok
      · rename_i heq
        intro hrun2
        have hend : numOrNull r.endTime ≠ none := by
          apply hrec r rfl
          simpa [restoreFields] using hr1
        have hend2 : (restoreFields r now).endTime ≠ none := by
          simpa [restoreFields] using hend
        exact absurd heq hend2
    · rw [if_neg hr1]
      intro habs
      exact absurd habs hr1

lemma runImpliesEnd_step {s t : TimerState} (hstep : Step s t)
    (h : RunImpliesEnd s) : RunImpliesEnd t := by
  cases hstep with
  | cmd now m => exact runImpliesEnd_handleCommand s now m h
  | alarmComplete now ok => exact runImpliesEnd_handleTimerComplete s now ok
  | syncTick => exact h
  | restore now ok saved hrec => exact runImpliesEnd_restoreState s now ok saved hrec h

/-- C3 amended: in every state reachable from the initial state through the
public operations — with `restore()` restricted to persisted records in
which a truthy `isRunning` comes with a truthy `endTime` — a running state
has a non-null `endTime`.  (Unrestricted `restore()` breaks the invariant:
see the counterexample with a legacy record.) -/
theorem running_invariant_amended (s : TimerState) (hre : Reachable s) :
    s.isRunning = true → s.endTime ≠ none := by
  induction hre with
  | init now => intro habs; simp [initialState] at habs
  | step hprev hstep ih => exact runImpliesEnd_step hstep ih

/-- Witness for C3 amended at the reachable running state obtained by one
`START_TIMER` command from the initial state. -/
theorem running_invariant_amended_witness :
    (handleCommand (initialState 0) 0 Command.START_TIMER).1.endTime ≠ none :=
  running_invariant_amended _
    (Reachable.step (Reachable.init 0)
      (Step.cmd (initialState 0) 0 Command.START_TIMER))
    (by decide)

/-- A paused state reached by setting 100 seconds, starting at 0 and
pausing at 50000 ms, observed after its (stale) deadline of 100000 ms has
passed. -/
def pausedPastDeadline : TimerState :=
  (pauseTimer (startTimer (setTime (initialState 0) 0 100).1 0).1 50000).1

/-- C6 counterexample: for this reachable paused state the 30-second sync
broadcast carries the pause-anchored value 50, while the formula
`restore()` uses — `max(0, ceil((endTime - now)/1000))` at the current
instant — yields 0, so the broadcast `timeLeft` does not equal the value
`restore()` would compute for every state. -/
theorem sync_timeLeft_diverges_from_restore_formula :
    pausedPastDeadline.isRunning = false ∧
    pausedPastDeadline.endTime = some 100000 ∧
    pausedPastDeadline.pausedAt = some 50000 ∧
    syncTimeLeft pausedPastDeadline 200000 = 50 ∧
    calcRemaining 100000 200000 = 0 ∧
    syncTimeLeft pausedPastDeadline 200000 ≠ calcRemaining 100000 200000 := by
  decide

/-- C6 amended: for running states (no pause marker, nonzero deadline) the
`timeLeft` carried by the periodic `STATE_SYNC` broadcast equals
`max(0, ceil((endTime - now)/1000))`, the same value `restore()` computes;
for paused states the broadcast anchors at `pausedAt` instead of `now`. -/
theorem sync_matches_restore_formula_when_running (s : TimerState)
    (now e : Int) (_hrun : s.isRunning = true) (hp : s.pausedAt = none)
    (he : s.endTime = some e) (he0 : e ≠ 0) :
    syncTimeLeft s now = calcRemaining e now := by
  unfold syncTimeLeft
  exact calculateCurrentTimeLeft_running s now e he he0 hp

/-- Witness for C6 amended at the running state started from the initial
state at instant 0, observed at 20000 ms. -/
theorem sync_matches_restore_formula_when_running_witness :
    syncTimeLeft (startTimer (initialState 0) 0).1 20000 =
      calcRemaining 1500000 20000 :=
  sync_matches_restore_formula_when_running _ 20000 1500000
    (by decide) (by decide) (by decide) (by decide)

/-- C10: the field-restoration step of `restoreState` substitutes defaults
field-by-field for falsy persisted values even when the record is present —
`timeLeft` 0 or absent restores as `25 * 60`, `cyclePosition` 0 or absent
restores as 1 — while truthy persisted values are adopted verbatim. -/
theorem restore_field_defaults (r : PersistedRecord)
    (now tl cp e st pa pd : Int) (k : SessionType)
    (htl : r.timeLeft = some tl) (htl0 : tl ≠ 0)
    (hcp : r.cyclePosition = some cp) (hcp0 : cp ≠ 0)
    (he : r.endTime = some e) (he0 : e ≠ 0)
    (hst : r.startTime = some st) (hst0 : st ≠ 0)
    (hpa : r.pausedAt = some pa) (hpa0 : pa ≠ 0)
    (hrun : r.isRunning = some true)
    (hk : r.sessionType = some k)
    (hpd : r.pausedDuration = some pd) :
    (restoreFields r now).timeLeft = tl ∧
    (restoreFields r now).cyclePosition = cp ∧
    (restoreFields r now).endTime = some e ∧
    (restoreFields r now).startTime = some st ∧
    (restoreFields r now).pausedAt = some pa ∧
    (restoreFields r now).isRunning = true ∧
    (restoreFields r now).sessionType = k ∧
    (restoreFields r now).pausedDuration = pd ∧
    (restoreFields { r with timeLeft := some 0 } now).timeLeft = 25 * 60 ∧
    (restoreFields { r with timeLeft := none } now).timeLeft = 25 * 60 ∧
    (restoreFields { r with cyclePosition := some 0 } now).cyclePosition = 1 ∧
    (restoreFields { r with cyclePosition := none } now).cyclePosition = 1 := by
  simp [restoreFields, numOr, numOrNull, boolOr, htl, htl0, hcp, hcp0, he,
    he0, hst, hst0, hpa, hpa0, hrun, hk, hpd]
  omega

/-- A persisted record with every field present and truthy. -/
def fullTruthyRecord : PersistedRecord :=
  { timeLeft := some 42
    isRunning := some true
    lastSaveTime := some 5
    sessionType := some .shortBreak
    cyclePosition := some 3
    startTime := some 7
    endTime := some 9
    pausedAt := some 11
    pausedDuration := some 13 }

/-- Witness for C10 at a concrete fully-truthy record. -/
theorem restore_field_defaults_witness :
    (restoreFields fullTruthyRecord 0).timeLeft = 42 ∧
    (restoreFields fullTruthyRecord 0).cyclePosition = 3 ∧
    (restoreFields fullTruthyRecord 0).endTime = some 9 ∧
    (restoreFields fullTruthyRecord 0).startTime = some 7 ∧
    (restoreFields fullTruthyRecord 0).pausedAt = some 11 ∧
    (restoreFields fullTruthyRecord 0).isRunning = true ∧
    (restoreFields fullTruthyRecord 0).sessionType = SessionType.shortBreak ∧
    (restoreFields fullTruthyRecord 0).pausedDuration = 13 ∧
    (restoreFields { fullTruthyRecord with timeLeft := some 0 } 0).timeLeft =
      25 * 60 ∧
    (restoreFields { fullTruthyRecord with timeLeft := none } 0).timeLeft =
      25 * 60 ∧
    (restoreFields { fullTruthyRecord with cyclePosition := some 0 }
      0).cyclePosition = 1 ∧
    (restoreFields { fullTruthyRecord with cyclePosition := none }
      0).cyclePosition = 1 :=
  restore_field_defaults fullTruthyRecord 0 42 3 9 7 11 13
    SessionType.shortBreak rfl (by decide) rfl (by decide) rfl (by decide)
    rfl (by decide) rfl (by decide) rfl rfl rfl
